import Mathlib

/-!
Shallow embedding of the engagement-gated marketing scheduler and
connection-resilience layer of the eliza chat-bot repository.

Times are in milliseconds, modelled as Nat.  Wall-clock reads that the
source performs via Date.now are passed in as an explicit now argument;
transport and generation results are passed in as oracle arguments
(Option String for generated text, Bool for send success), so every
function here is a pure, executable translation of the corresponding
source function.
-/

/-- One entry of the per-channel recentMessages list: the source stores
objects of shape { isUser, time }. -/
structure MsgEvent where
  isUser : Bool
  time : Nat
deriving DecidableEq, Repr

namespace Discord

/-! Embedding of packages/client-discord/src/messageManager.ts
(the variant with groupActivities and MARKETING_CONSTANTS at the top
of the file). -/

def MIN_MARKETING_INTERVAL : Nat := 2 * 60 * 1000

def REQUIRED_MESSAGES : Nat := 3

def MESSAGE_ACTIVITY_WINDOW : Nat := 5 * 60 * 1000

def MAX_MESSAGES_PER_DAY : Nat := 50

def ONE_DAY_MS : Nat := 24 * 60 * 60 * 1000

/-- Per-channel entry of this.groupActivities. -/
structure GroupActivity where
  lastMarketingTime : Nat
  recentMessages : List MsgEvent
  dailyMarketingCount : Nat
  lastDailyReset : Nat
deriving DecidableEq, Repr

/-- isGroupActive: counts user messages inside the activity window; an
unknown channel (no groupActivities entry) yields false. -/
def isGroupActive : Option GroupActivity → Nat → Bool
  | none, _ => false
  | some a, now =>
    decide (REQUIRED_MESSAGES ≤
      (a.recentMessages.filter fun m =>
        m.isUser && decide (now - m.time < MESSAGE_ACTIVITY_WINDOW)).length)

/-- The lazy daily reset performed at the top of canSendMarketingMessage:
if 24h have elapsed since lastDailyReset, zero the daily count and advance
the reset timestamp. -/
def applyDailyReset (a : GroupActivity) (now : Nat) : GroupActivity :=
  if ONE_DAY_MS ≤ now - a.lastDailyReset then
    { a with dailyMarketingCount := 0, lastDailyReset := now }
  else a

/-- canSendMarketingMessage: applies the lazy daily reset (a side effect on
the stored activity, returned as the first component) and then combines the
three conditions of the source: minimum interval elapsed, daily count below
the cap, and channel active or stale-channel revival.  The
lastMessageWasMarketing argument stands for the fetch of the channel's most
recent message and the comparison of its author with the client's own id. -/
def canSendMarketingMessage (a : GroupActivity) (now : Nat)
    (lastMessageWasMarketing : Bool) : GroupActivity × Bool :=
  let a' := applyDailyReset a now
  let timeSinceLastMarketing := now - a'.lastMarketingTime
  let timeCondition := decide (MIN_MARKETING_INTERVAL ≤ timeSinceLastMarketing)
  let messageCountCondition := decide (a'.dailyMarketingCount < MAX_MESSAGES_PER_DAY)
  let activityCondition := isGroupActive (some a') now ||
    (!lastMessageWasMarketing && decide (MIN_MARKETING_INTERVAL ≤ timeSinceLastMarketing))
  (a', timeCondition && messageCountCondition && activityCondition)

/-- Outcome of one firing of the marketing timer for one channel. -/
structure FireResult (σ : Type) where
  activity : σ
  recorded : Bool
  sendAttempted : Bool
  rearm : Option Nat
deriving Repr

/-- sendMarketingMessage for one channel: checks marketingEnabled, runs
canSendMarketingMessage, generates (generated is the oracle result of
generateMarketingMessage), sends (sendOk is the oracle result of the
transport sendMessage call, false meaning it threw), and only after a
successful send updates lastMarketingTime, appends the automated event,
increments the daily count and schedules the next check. -/
def sendMarketingMessage (marketingEnabled : Bool) (a : GroupActivity) (now : Nat)
    (lastMessageWasMarketing : Bool) (generated : Option String) (sendOk : Bool) :
    FireResult GroupActivity :=
  if marketingEnabled = false then ⟨a, false, false, none⟩
  else
    let a' := (canSendMarketingMessage a now lastMessageWasMarketing).1
    if (canSendMarketingMessage a now lastMessageWasMarketing).2 = false then
      ⟨a', false, false, none⟩
    else
      match generated with
      | none => ⟨a', false, false, none⟩
      | some _ =>
        if sendOk = false then ⟨a', false, true, none⟩
        else
          ⟨{ a' with
              lastMarketingTime := now,
              recentMessages := a'.recentMessages ++ [⟨false, now⟩],
              dailyMarketingCount := a'.dailyMarketingCount + 1 },
            true, true, some MIN_MARKETING_INTERVAL⟩

/-- updateChannelActivity: records a user message for the channel.  The
discord variant only appends; it performs no pruning. -/
def updateChannelActivity (a : GroupActivity) (now : Nat) : GroupActivity :=
  { a with recentMessages := a.recentMessages ++ [⟨true, now⟩] }

/-- Reachable states of one channel's activity entry: initialisation in
startMarketing, user messages recorded by updateChannelActivity, and
firings of the marketing timer. -/
inductive Reachable : GroupActivity → Prop where
  | init (t0 : Nat) : Reachable ⟨0, [], 0, t0⟩
  | user (a : GroupActivity) (now : Nat) :
      Reachable a → Reachable (updateChannelActivity a now)
  | fire (a : GroupActivity) (enabled : Bool) (now : Nat) (lw : Bool)
      (gen : Option String) (sendOk : Bool) :
      Reachable a →
      Reachable (sendMarketingMessage enabled a now lw gen sendOk).activity

end Discord

namespace Telegram

/-! Embedding of packages/client-telegram/src/messageManager.ts
(the MessageManager variant with groupActivities and the private
MARKETING_CONSTANTS object).  Its GroupActivity has no stored daily
counter: the quota check counts the client's own messages of the last
24 hours fetched from the transport, passed in here as the oracle
argument marketingMessagesLast24h. -/

def MIN_MARKETING_INTERVAL : Nat := 2 * 60 * 1000

def REQUIRED_MESSAGES : Nat := 3

def MESSAGE_ACTIVITY_WINDOW : Nat := 5 * 60 * 1000

def MAX_MESSAGES_PER_DAY : Nat := 4

def ONE_DAY_MS : Nat := 24 * 60 * 60 * 1000

/-- Per-group entry of this.groupActivities. -/
structure GroupActivity where
  lastMarketingTime : Nat
  recentMessages : List MsgEvent
  lastDailyReset : Nat
deriving DecidableEq, Repr

/-- isGroupActive: counts user messages inside the activity window; an
unknown group yields false. -/
def isGroupActive : Option GroupActivity → Nat → Bool
  | none, _ => false
  | some a, now =>
    decide (REQUIRED_MESSAGES ≤
      (a.recentMessages.filter fun m =>
        m.isUser && decide (now - m.time < MESSAGE_ACTIVITY_WINDOW)).length)

/-- The lastMessageWasMarketing flag as the telegram variant computes it:
the getMessages call it inspects is filtered with fromUser set to the
client's own user id, so the messages list holds only the bot's own
messages, messages[0] is the bot's own most recent message, and the
fromId comparison degenerates to: the bot has at least one prior message
in the dialog (an empty fetch gives undefined, hence false).  The
argument is the fetched list of the bot's own message timestamps. -/
def lastMessageWasMarketing (ownMessages : List Nat) : Bool :=
  !ownMessages.isEmpty

/-- canSendMarketingMessage: minimum interval elapsed, fewer than
MAX_MESSAGES_PER_DAY own messages in the fetched last-24h window, and the
group active or stale-group revival.  An unknown group yields false.
The lastMessageWasMarketing argument is the flag the source computes from
its own-messages fetch, see the definition of that name above. -/
def canSendMarketingMessage (a? : Option GroupActivity) (now : Nat)
    (marketingMessagesLast24h : Nat) (lastMessageWasMarketing : Bool) : Bool :=
  match a? with
  | none => false
  | some a =>
    let timeSinceLastMarketing := now - a.lastMarketingTime
    decide (MIN_MARKETING_INTERVAL ≤ timeSinceLastMarketing) &&
    decide (marketingMessagesLast24h < MAX_MESSAGES_PER_DAY) &&
    (isGroupActive (some a) now ||
      (!lastMessageWasMarketing &&
        decide (MIN_MARKETING_INTERVAL ≤ timeSinceLastMarketing)))

/-- sendMarketingMessage for one group.  The connected argument records the
connection status of the transport at firing time; the source performs no
check on it, so the body never reads it.  On a transport failure (sendOk
false, the sendMessage call threw) the outer catch swallows the error:
nothing is recorded and no next check is scheduled.  Only after a
successful send are lastMarketingTime and the automated event recorded and
the next check scheduled. -/
def sendMarketingMessage (marketingEnabled connected : Bool)
    (a? : Option GroupActivity) (now : Nat) (marketingMessagesLast24h : Nat)
    (lastMessageWasMarketing : Bool) (generated : Option String) (sendOk : Bool) :
    Discord.FireResult (Option GroupActivity) :=
  if marketingEnabled = false then ⟨a?, false, false, none⟩
  else if canSendMarketingMessage a? now marketingMessagesLast24h
      lastMessageWasMarketing = false then ⟨a?, false, false, none⟩
  else
    match generated with
    | none => ⟨a?, false, false, none⟩
    | some _ =>
      if sendOk = false then ⟨a?, false, true, none⟩
      else
        match a? with
        | none => ⟨none, false, true, some MIN_MARKETING_INTERVAL⟩
        | some a =>
          ⟨some { a with
              lastMarketingTime := now,
              recentMessages := a.recentMessages ++ [⟨false, now⟩] },
            true, true, some MIN_MARKETING_INTERVAL⟩

/-- updateGroupActivity: lazily creates the entry, appends the user event,
prunes events older than the activity window and advances lastDailyReset
when more than a day has elapsed. -/
def updateGroupActivity (a? : Option GroupActivity) (now : Nat) : GroupActivity :=
  let a := match a? with
    | none => ({ lastMarketingTime := 0, recentMessages := [], lastDailyReset := now } : GroupActivity)
    | some a => a
  let a := { a with
    recentMessages := (a.recentMessages ++ [(⟨true, now⟩ : MsgEvent)]).filter fun m =>
      decide (now - m.time < MESSAGE_ACTIVITY_WINDOW) }
  if ONE_DAY_MS < now - a.lastDailyReset then { a with lastDailyReset := now }
  else a

/-- stopMarketing only clears the marketingEnabled flag. -/
def stopMarketing (_marketingEnabled : Bool) : Bool := false

end Telegram

/-- The eligibility algorithm as the spec words it, short-circuit and in
order: too soon deny, quota exhausted deny, active allow, stale-channel
revival allow, otherwise deny.  Written from the spec for comparison with
the source's canSendMarketingMessage conjunction. -/
def evaluateSpec (minInterval timeSinceLastSend : Nat)
    (quotaOk active lastEventAutomated : Bool) : Bool :=
  if timeSinceLastSend < minInterval then false
  else if quotaOk = false then false
  else if active then true
  else if !lastEventAutomated && decide (minInterval ≤ timeSinceLastSend) then true
  else false

namespace Marketing

/-! Embedding of the MarketingManager in src/unnamed/part_000: the
scheduleNextMessage timer callback and stop. -/

/-- The scheduler's timer bookkeeping: the group ids that currently have a
pending timer in this.messageIntervals. -/
structure M000State where
  messageIntervals : List String
deriving DecidableEq, Repr

/-- scheduleNextMessage: clears any existing timer for the group and sets a
fresh one. -/
def scheduleNextMessage (st : M000State) (gid : String) : M000State :=
  { messageIntervals := gid :: st.messageIntervals.filter fun g => g ≠ gid }

/-- The body of the timer set by scheduleNextMessage: it runs
sendMarketingMessage (whose outcome is the oracle argument, an error being
the thrown-and-logged case) and in the finally block always schedules the
next message. -/
def fireCallback (st : M000State) (gid : String)
    (sendOutcome : Except String Unit) : M000State :=
  match sendOutcome with
  | Except.ok _ => scheduleNextMessage st gid
  | Except.error _ => scheduleNextMessage st gid

/-- stop: clears every scheduled timer and deletes it from the map; the
returned list is the timers it cancelled. -/
def stop (st : M000State) : M000State × List String :=
  (⟨[]⟩, st.messageIntervals)

end Marketing

namespace TgUser

/-! Embedding of the TelegramUserClient in src/unnamed/part_001:
reconnectWithBackoff and ensureConnection. -/

def maxAttempts : Nat := 10

def baseDelay : Nat := 1000

def maxDelay : Nat := 30000

/-- The delay reconnectWithBackoff waits before the attempt with the given
zero-based index. -/
def reconnectDelay (attempt : Nat) : Nat :=
  min (baseDelay * 2 ^ attempt) maxDelay

end TgUser

namespace TgBot

/-! Embedding of the TelegramClient variant of
packages/client-telegram/src/index.ts that has reconnectAttempts,
MAX_RECONNECT_ATTEMPTS and handleConnectionError. -/

def MAX_RECONNECT_ATTEMPTS : Nat := 10

def RECONNECT_DELAY : Nat := 5000

/-- Connection bookkeeping of the client. -/
structure ConnState where
  isConnected : Bool
  reconnectAttempts : Nat
deriving DecidableEq, Repr

/-- A successful initializeBot: marks the client connected and resets the
attempt counter to 0. -/
def initializeBotSuccess (_s : ConnState) : ConnState :=
  { isConnected := true, reconnectAttempts := 0 }

/-- The backoff delay handleConnectionError computes after incrementing
reconnectAttempts: RECONNECT_DELAY * 2 ^ (reconnectAttempts - 1), with no
cap. -/
def handleConnectionErrorDelay (reconnectAttempts : Nat) : Nat :=
  RECONNECT_DELAY * 2 ^ (reconnectAttempts - 1)

/-- One handleConnectionError call: marks the client disconnected; when the
attempt counter has reached MAX_RECONNECT_ATTEMPTS it stops the bot
(returning no delay), otherwise it increments the counter and schedules a
reconnect after the computed delay. -/
def handleConnectionErrorStep (s : ConnState) : ConnState × Option Nat :=
  let s := { s with isConnected := false }
  if MAX_RECONNECT_ATTEMPTS ≤ s.reconnectAttempts then (s, none)
  else
    let s' := { s with reconnectAttempts := s.reconnectAttempts + 1 }
    (s', some (handleConnectionErrorDelay s'.reconnectAttempts))

/-- isGroupAuthorized: denies when the sender id equals the bot's own id
(both read through optional chaining), then applies the allowed-group
configuration. -/
def isGroupAuthorized (fromId botInfoId : Option String)
    (shouldOnlyJoinInAllowedGroups : Bool) (allowedGroupIds : List String)
    (chatId : String) : Bool :=
  if fromId = botInfoId then false
  else if shouldOnlyJoinInAllowedGroups = false then true
  else allowedGroupIds.contains chatId

end TgBot

namespace DiscordClient

/-! Embedding of the inbound-message paths of
packages/client-discord/src/discordUserClient.ts and the own-message guard
of MessageManager.handleMessage. -/

/-- Whether the messageCreate event handler reaches
messageManager.handleMessage: it returns early for the client's own
messages, for empty content and for non-allowed channels. -/
def messageCreateProcessed (selfId : Option String) (authorId : String)
    (hasContent allowedChannel : Bool) : Bool :=
  if selfId = some authorId then false
  else if hasContent = false then false
  else allowedChannel

/-- MessageManager.handleMessage, reduced to the own-message guard, the
shouldRespondToMessage oracle and the generateResponse oracle.  The Bool
component records whether response generation was invoked. -/
def handleMessage (botId authorId : String) (shouldRespond : Bool)
    (generated : Option String) : Option String × Bool :=
  if authorId = botId then (none, false)
  else if shouldRespond = false then (none, false)
  else
    match generated with
    | none => (none, true)
    | some t => (some t, true)

end DiscordClient

/-! Theorems. -/

theorem conj_eq_evaluateSpec (minI t : Nat) (q act auto : Bool) :
    (decide (minI ≤ t) && q && (act || (!auto && decide (minI ≤ t)))) =
      evaluateSpec minI t q act auto := by
  by_cases h : minI ≤ t
  · have h' : ¬ t < minI := Nat.not_lt.mpr h
    cases q <;> cases act <;> cases auto <;> simp [evaluateSpec, h, h']
  · have h' : t < minI := Nat.not_le.mp h
    cases q <;> cases act <;> cases auto <;> simp [evaluateSpec, h, h']

theorem bool_and_self_absorb (x y : Bool) : ((x && y) && y) = (x && y) := by
  cases x <;> cases y <;> rfl

/-- C2 counterexample: in the telegram variant the claimed formula and the
code disagree.  Scenario: the bot posted once long ago (its own-messages
fetch returns one timestamp, so lastMessageWasMarketing is true), humans
posted since so the most recent channel message is not automated, the group
is currently quiet, the interval has elapsed and the quota is free.  The
claim's verdict (stale-channel revival: most recent channel message not
automated and interval elapsed) allows, but the code denies, because its
flag only records that the bot has some prior message in the dialog. -/
theorem canSend_verdict_counterexample :
    Telegram.canSendMarketingMessage (some ⟨0, [], 0⟩) 300000 0
        (Telegram.lastMessageWasMarketing [100]) = false ∧
    evaluateSpec Telegram.MIN_MARKETING_INTERVAL (300000 - 0)
      (decide (0 < Telegram.MAX_MESSAGES_PER_DAY))
      (Telegram.isGroupActive (some ⟨0, [], 0⟩) 300000) false = true := by
  exact ⟨by decide, by decide⟩

/-- C2 amended: the discord verdict is allow exactly when minimum interval,
quota and the activity-or-stale-revival disjunction all hold, equivalently
it equals the spec's short-circuit evaluation order, with the most recent
channel message's author really compared (fetch limit 1).  The telegram
verdict equals the same ordered evaluation but with the flag it actually
computes, namely "the bot has at least one prior message in the dialog"
(its fetch is filtered to its own messages), so its stale-channel-revival
branch fires only in dialogs the bot has never posted in, and an inactive
group in which the bot ever posted is denied however much time has passed.
Minimum interval and quota remain hard gates in both variants. -/
theorem canSend_verdict_amended :
    (∀ (a : Discord.GroupActivity) (now : Nat) (lw : Bool),
      (Discord.canSendMarketingMessage a now lw).2 =
        evaluateSpec Discord.MIN_MARKETING_INTERVAL
          (now - (Discord.applyDailyReset a now).lastMarketingTime)
          (decide ((Discord.applyDailyReset a now).dailyMarketingCount <
            Discord.MAX_MESSAGES_PER_DAY))
          (Discord.isGroupActive (some (Discord.applyDailyReset a now)) now) lw)
    ∧ (∀ (a : Telegram.GroupActivity) (now mm24 : Nat) (ownMessages : List Nat),
      Telegram.canSendMarketingMessage (some a) now mm24
          (Telegram.lastMessageWasMarketing ownMessages) =
        evaluateSpec Telegram.MIN_MARKETING_INTERVAL (now - a.lastMarketingTime)
          (decide (mm24 < Telegram.MAX_MESSAGES_PER_DAY))
          (Telegram.isGroupActive (some a) now) (!ownMessages.isEmpty))
    ∧ (∀ (a : Telegram.GroupActivity) (now mm24 : Nat) (ownMessages : List Nat),
      ownMessages ≠ [] → Telegram.isGroupActive (some a) now = false →
        Telegram.canSendMarketingMessage (some a) now mm24
          (Telegram.lastMessageWasMarketing ownMessages) = false)
    ∧ (∀ (a : Discord.GroupActivity) (now : Nat) (lw : Bool),
      now - (Discord.applyDailyReset a now).lastMarketingTime <
          Discord.MIN_MARKETING_INTERVAL →
        (Discord.canSendMarketingMessage a now lw).2 = false)
    ∧ (∀ (a : Discord.GroupActivity) (now : Nat) (lw : Bool),
      Discord.MAX_MESSAGES_PER_DAY ≤
          (Discord.applyDailyReset a now).dailyMarketingCount →
        (Discord.canSendMarketingMessage a now lw).2 = false)
    ∧ (∀ (a : Telegram.GroupActivity) (now mm24 : Nat) (lw : Bool),
      now - a.lastMarketingTime < Telegram.MIN_MARKETING_INTERVAL →
        Telegram.canSendMarketingMessage (some a) now mm24 lw = false)
    ∧ (∀ (a : Telegram.GroupActivity) (now mm24 : Nat) (lw : Bool),
      Telegram.MAX_MESSAGES_PER_DAY ≤ mm24 →
        Telegram.canSendMarketingMessage (some a) now mm24 lw = false) := by
  refine ⟨?_, ?_, ?_, ?_, ?_, ?_, ?_⟩
  · intro a now lw
    simpa [Discord.canSendMarketingMessage] using
      conj_eq_evaluateSpec Discord.MIN_MARKETING_INTERVAL
        (now - (Discord.applyDailyReset a now).lastMarketingTime)
        (decide ((Discord.applyDailyReset a now).dailyMarketingCount <
          Discord.MAX_MESSAGES_PER_DAY))
        (Discord.isGroupActive (some (Discord.applyDailyReset a now)) now) lw
  · intro a now mm24 ownMessages
    simpa [Telegram.canSendMarketingMessage, Telegram.lastMessageWasMarketing] using
      conj_eq_evaluateSpec Telegram.MIN_MARKETING_INTERVAL
        (now - a.lastMarketingTime) (decide (mm24 < Telegram.MAX_MESSAGES_PER_DAY))
        (Telegram.isGroupActive (some a) now) (!ownMessages.isEmpty)
  · intro a now mm24 ownMessages hne hact
    cases ownMessages with
    | nil => exact absurd rfl hne
    | cons x xs =>
      simp [Telegram.canSendMarketingMessage, Telegram.lastMessageWasMarketing, hact]
  · intro a now lw h
    have h' : ¬ Discord.MIN_MARKETING_INTERVAL ≤
        now - (Discord.applyDailyReset a now).lastMarketingTime := Nat.not_le.mpr h
    simp [Discord.canSendMarketingMessage, h']
  · intro a now lw h
    have h' : ¬ (Discord.applyDailyReset a now).dailyMarketingCount <
        Discord.MAX_MESSAGES_PER_DAY := Nat.not_lt.mpr h
    simp [Discord.canSendMarketingMessage, h']
  · intro a now mm24 lw h
    have h' : ¬ Telegram.MIN_MARKETING_INTERVAL ≤ now - a.lastMarketingTime :=
      Nat.not_le.mpr h
    simp [Telegram.canSendMarketingMessage, h']
  · intro a now mm24 lw h
    have h' : ¬ mm24 < Telegram.MAX_MESSAGES_PER_DAY := Nat.not_lt.mpr h
    simp [Telegram.canSendMarketingMessage, h']

/-- Witness for C2 amended: concrete evaluations discharging the
hypotheses: a quiet telegram dialog the bot posted in before is denied, a
discord channel that sent 1 minute ago and one at the daily cap are denied,
and a telegram group inside the interval and one at the quota cap are
denied. -/
theorem canSend_verdict_amended_witness :
    Telegram.canSendMarketingMessage (some ⟨0, [], 0⟩) 300000 0
        (Telegram.lastMessageWasMarketing [100]) = false ∧
    (Discord.canSendMarketingMessage ⟨240000, [], 0, 0⟩ 300000 false).2 = false ∧
    (Discord.canSendMarketingMessage ⟨0, [], 50, 0⟩ 300000 false).2 = false ∧
    Telegram.canSendMarketingMessage (some ⟨240000, [], 0⟩) 300000 0 false = false ∧
    Telegram.canSendMarketingMessage (some ⟨0, [], 0⟩) 300000 4 false = false :=
  ⟨canSend_verdict_amended.2.2.1 ⟨0, [], 0⟩ 300000 0 [100] (by decide) (by decide),
   canSend_verdict_amended.2.2.2.1 ⟨240000, [], 0, 0⟩ 300000 false (by decide),
   canSend_verdict_amended.2.2.2.2.1 ⟨0, [], 50, 0⟩ 300000 false (by decide),
   canSend_verdict_amended.2.2.2.2.2.1 ⟨240000, [], 0⟩ 300000 0 false (by decide),
   canSend_verdict_amended.2.2.2.2.2.2 ⟨0, [], 0⟩ 300000 4 false (by decide)⟩

/-- C4: isGroupActive is true exactly when at least REQUIRED_MESSAGES user
events lie inside the activity window relative to now; events outside the
window never contribute (filtering them away does not change the verdict),
and an unknown channel yields false rather than an error.  Holds for both
the discord and the telegram variant. -/
theorem isGroupActive_spec :
    (∀ now, Discord.isGroupActive none now = false)
    ∧ (∀ (a : Discord.GroupActivity) (now : Nat),
        Discord.isGroupActive (some a) now = true ↔
          Discord.REQUIRED_MESSAGES ≤
            (a.recentMessages.filter fun m =>
              m.isUser && decide (now - m.time < Discord.MESSAGE_ACTIVITY_WINDOW)).length)
    ∧ (∀ (a : Discord.GroupActivity) (now : Nat),
        Discord.isGroupActive (some a) now =
          Discord.isGroupActive (some
            { a with recentMessages := a.recentMessages.filter (fun m =>
                decide (now - m.time < Discord.MESSAGE_ACTIVITY_WINDOW)) }) now)
    ∧ (∀ now, Telegram.isGroupActive none now = false)
    ∧ (∀ (a : Telegram.GroupActivity) (now : Nat),
        Telegram.isGroupActive (some a) now = true ↔
          Telegram.REQUIRED_MESSAGES ≤
            (a.recentMessages.filter fun m =>
              m.isUser && decide (now - m.time < Telegram.MESSAGE_ACTIVITY_WINDOW)).length)
    ∧ (∀ (a : Telegram.GroupActivity) (now : Nat),
        Telegram.isGroupActive (some a) now =
          Telegram.isGroupActive (some
            { a with recentMessages := a.recentMessages.filter (fun m =>
                decide (now - m.time < Telegram.MESSAGE_ACTIVITY_WINDOW)) }) now) := by
  refine ⟨fun _ => rfl, ?_, ?_, fun _ => rfl, ?_, ?_⟩
  · intro a now
    simp [Discord.isGroupActive]
  · intro a now
    simp only [Discord.isGroupActive, List.filter_filter]
    congr 2
    exact congrArg List.length
      (List.filter_congr fun (m : MsgEvent) _ => (bool_and_self_absorb m.isUser _).symm)
  · intro a now
    simp [Telegram.isGroupActive]
  · intro a now
    simp only [Telegram.isGroupActive, List.filter_filter]
    congr 2
    exact congrArg List.length
      (List.filter_congr fun (m : MsgEvent) _ => (bool_and_self_absorb m.isUser _).symm)

theorem canSend_fst (a : Discord.GroupActivity) (now : Nat) (lw : Bool) :
    (Discord.canSendMarketingMessage a now lw).1 = Discord.applyDailyReset a now := rfl

theorem applyDailyReset_count_le (a : Discord.GroupActivity) (now : Nat) :
    (Discord.applyDailyReset a now).dailyMarketingCount ≤ a.dailyMarketingCount := by
  unfold Discord.applyDailyReset
  split <;> simp

theorem canSend_true_count_lt (a : Discord.GroupActivity) (now : Nat) (lw : Bool) :
    (Discord.canSendMarketingMessage a now lw).2 = true →
    (Discord.canSendMarketingMessage a now lw).1.dailyMarketingCount <
      Discord.MAX_MESSAGES_PER_DAY := by
  simp only [Discord.canSendMarketingMessage, Bool.and_eq_true, decide_eq_true_eq]
  rintro ⟨⟨-, h⟩, -⟩
  exact h

theorem fire_count_le (e : Bool) (a : Discord.GroupActivity) (now : Nat) (lw : Bool)
    (gen : Option String) (so : Bool)
    (h : a.dailyMarketingCount ≤ Discord.MAX_MESSAGES_PER_DAY) :
    (Discord.sendMarketingMessage e a now lw gen so).activity.dailyMarketingCount ≤
      Discord.MAX_MESSAGES_PER_DAY := by
  have ha' : (Discord.canSendMarketingMessage a now lw).1.dailyMarketingCount ≤
      Discord.MAX_MESSAGES_PER_DAY := by
    rw [canSend_fst]
    exact le_trans (applyDailyReset_count_le a now) h
  unfold Discord.sendMarketingMessage
  split
  · exact h
  · split
    · exact ha'
    · split
      · exact ha'
      · split
        · exact ha'
        · rename_i henabled hcs _ _ hso
          have hc : (Discord.canSendMarketingMessage a now lw).2 = true :=
            Bool.of_not_eq_false hcs
          exact Nat.succ_le_of_lt (canSend_true_count_lt a now lw hc)

/-- C1: in every reachable state of a channel's activity entry the daily
marketing count stays at or below MAX_MESSAGES_PER_DAY; the eligibility
check applies the lazy daily reset and then permits a send only when the
count (after the reset) is strictly below the cap. -/
theorem discord_quota_invariant :
    (∀ a : Discord.GroupActivity, Discord.Reachable a →
      a.dailyMarketingCount ≤ Discord.MAX_MESSAGES_PER_DAY)
    ∧ (∀ (a : Discord.GroupActivity) (now : Nat) (lw : Bool),
      (Discord.canSendMarketingMessage a now lw).2 = true →
        (Discord.canSendMarketingMessage a now lw).1.dailyMarketingCount <
          Discord.MAX_MESSAGES_PER_DAY) := by
  constructor
  · intro a h
    induction h with
    | init t0 => exact Nat.zero_le _
    | user a now _ ih => simpa [Discord.updateChannelActivity] using ih
    | fire a e now lw gen so _ ih => exact fire_count_le e a now lw gen so ih
  · intro a now lw h
    exact canSend_true_count_lt a now lw h

/-- Witness for C1: the invariant at the freshly initialised entry, and the
strict-below-cap consequence at a concrete eligible state. -/
theorem discord_quota_invariant_witness :
    (⟨0, [], 0, 0⟩ : Discord.GroupActivity).dailyMarketingCount ≤
      Discord.MAX_MESSAGES_PER_DAY ∧
    (Discord.canSendMarketingMessage ⟨0, [], 0, 0⟩ 300000 false).1.dailyMarketingCount <
      Discord.MAX_MESSAGES_PER_DAY :=
  ⟨discord_quota_invariant.1 ⟨0, [], 0, 0⟩ (Discord.Reachable.init 0),
   discord_quota_invariant.2 ⟨0, [], 0, 0⟩ 300000 false (by decide)⟩

/-- C3: a transport send failure charges nothing.  For the telegram variant
the activity entry is returned untouched; for the discord variant the
last-send timestamp and the event list are untouched and the daily count is
not incremented (it is either unchanged or zeroed by the lazy daily reset
that the eligibility read already performed, the returned entry being
exactly the one the eligibility read produced).  In both variants the
bookkeeping runs exactly when marketing is enabled, eligibility passed,
generation produced text and the transport confirmed the send. -/
theorem no_charge_on_send_failure :
    (∀ (e c : Bool) (a? : Option Telegram.GroupActivity) (now mm24 : Nat)
        (lw : Bool) (gen : Option String),
      (Telegram.sendMarketingMessage e c a? now mm24 lw gen false).activity = a? ∧
      (Telegram.sendMarketingMessage e c a? now mm24 lw gen false).recorded = false)
    ∧ (∀ (e : Bool) (a : Discord.GroupActivity) (now : Nat) (lw : Bool)
        (gen : Option String),
      (Discord.sendMarketingMessage e a now lw gen false).activity.lastMarketingTime =
          a.lastMarketingTime ∧
      (Discord.sendMarketingMessage e a now lw gen false).activity.recentMessages =
          a.recentMessages ∧
      (Discord.sendMarketingMessage e a now lw gen false).recorded = false ∧
      (Discord.sendMarketingMessage e a now lw gen false).activity.dailyMarketingCount ≤
          a.dailyMarketingCount)
    ∧ (∀ (e c : Bool) (a? : Option Telegram.GroupActivity) (now mm24 : Nat)
        (lw : Bool) (gen : Option String) (so : Bool),
      (Telegram.sendMarketingMessage e c a? now mm24 lw gen so).recorded =
        (e && Telegram.canSendMarketingMessage a? now mm24 lw && gen.isSome && so))
    ∧ (∀ (e : Bool) (a : Discord.GroupActivity) (now : Nat) (lw : Bool)
        (gen : Option String) (so : Bool),
      (Discord.sendMarketingMessage e a now lw gen so).recorded =
        (e && (Discord.canSendMarketingMessage a now lw).2 && gen.isSome && so)) := by
  refine ⟨?_, ?_, ?_, ?_⟩
  · intro e c a? now mm24 lw gen
    unfold Telegram.sendMarketingMessage
    split
    · exact ⟨rfl, rfl⟩
    · split
      · exact ⟨rfl, rfl⟩
      · cases gen <;> exact ⟨rfl, rfl⟩
  · intro e a now lw gen
    have h1 : (Discord.applyDailyReset a now).lastMarketingTime =
        a.lastMarketingTime := by
      unfold Discord.applyDailyReset
      split <;> rfl
    have h2 : (Discord.applyDailyReset a now).recentMessages = a.recentMessages := by
      unfold Discord.applyDailyReset
      split <;> rfl
    have h3 := applyDailyReset_count_le a now
    unfold Discord.sendMarketingMessage
    split
    · exact ⟨rfl, rfl, rfl, le_refl _⟩
    · rw [canSend_fst]
      split
      · exact ⟨h1, h2, rfl, h3⟩
      · cases gen with
        | none => exact ⟨h1, h2, rfl, h3⟩
        | some t => exact ⟨h1, h2, rfl, h3⟩
  · intro e c a? now mm24 lw gen so
    cases e with
    | false => rfl
    | true =>
      cases h : Telegram.canSendMarketingMessage a? now mm24 lw with
      | false => simp [Telegram.sendMarketingMessage, h]
      | true =>
        cases gen with
        | none => simp [Telegram.sendMarketingMessage, h]
        | some t =>
          cases so with
          | false => simp [Telegram.sendMarketingMessage, h]
          | true =>
            cases a? with
            | none => simp [Telegram.canSendMarketingMessage] at h
            | some a => simp [Telegram.sendMarketingMessage, h]
  · intro e a now lw gen so
    cases e with
    | false => rfl
    | true =>
      cases h : (Discord.canSendMarketingMessage a now lw).2 with
      | false => simp [Discord.sendMarketingMessage, h]
      | true =>
        cases gen with
        | none => simp [Discord.sendMarketingMessage, h]
        | some t => cases so <;> simp [Discord.sendMarketingMessage, h]

/-- Witness for C4: the iff instantiated at a concrete active channel
(three fresh user events at time 299000, now 300000). -/
theorem isGroupActive_spec_witness :
    Discord.isGroupActive
      (some ⟨0, [⟨true, 299000⟩, ⟨true, 299000⟩, ⟨true, 299000⟩], 0, 0⟩) 300000 = true :=
  (isGroupActive_spec.2.1 ⟨0, [⟨true, 299000⟩, ⟨true, 299000⟩, ⟨true, 299000⟩], 0, 0⟩
    300000).mpr (by decide)

/-- C5 counterexample: handleConnectionError applies no cap to its backoff
delay.  At the fourth attempt (reconnectAttempts 3 before the call) it
schedules the reconnect after 40000 ms, while the claimed formula
min(5000 * 2 ^ 3, 30000) gives 30000 ms, so the delay exceeds the claimed
MAX_RECONNECT_DELAY of 30 s. -/
theorem backoff_cap_counterexample :
    TgBot.handleConnectionErrorStep ⟨false, 3⟩ = (⟨false, 4⟩, some 40000) ∧
    min (5000 * 2 ^ 3) 30000 = 30000 ∧ 30000 < 40000 :=
  ⟨rfl, by decide, by decide⟩

/-- C5 amended: reconnectWithBackoff in the TelegramUserClient computes
min(1000 * 2 ^ attempt, 30000), so its delay never exceeds 30 s and its
first five attempts wait 1s, 2s, 4s, 8s, 16s; handleConnectionError in the
TelegramClient computes 5000 * 2 ^ (attempt - 1) with no cap, so from the
fourth attempt on its delay exceeds 30 s; a successful initializeBot resets
the attempt counter to 0 and marks the client connected. -/
theorem backoff_cap_amended :
    (∀ n, TgUser.reconnectDelay n = min (TgUser.baseDelay * 2 ^ n) TgUser.maxDelay)
    ∧ (∀ n, TgUser.reconnectDelay n ≤ TgUser.maxDelay)
    ∧ ([TgUser.reconnectDelay 0, TgUser.reconnectDelay 1, TgUser.reconnectDelay 2,
        TgUser.reconnectDelay 3, TgUser.reconnectDelay 4] =
        [1000, 2000, 4000, 8000, 16000])
    ∧ (∀ s, (TgBot.initializeBotSuccess s).reconnectAttempts = 0 ∧
        (TgBot.initializeBotSuccess s).isConnected = true)
    ∧ (∀ n, TgBot.handleConnectionErrorDelay (n + 4) = 5000 * 2 ^ (n + 3))
    ∧ (∀ n, 30000 < TgBot.handleConnectionErrorDelay (n + 4)) := by
  refine ⟨fun n => rfl, fun n => min_le_right _ _, by decide,
    fun s => ⟨rfl, rfl⟩, fun n => rfl, ?_⟩
  intro n
  have h8 : 8 ≤ 2 ^ (n + 3) := by
    calc 8 = 2 ^ 3 := by decide
    _ ≤ 2 ^ (n + 3) := Nat.pow_le_pow_right (by decide) (by omega)
  calc 30000 < 5000 * 8 := by decide
  _ ≤ 5000 * 2 ^ (n + 3) := Nat.mul_le_mul_left 5000 h8
  _ = TgBot.handleConnectionErrorDelay (n + 4) := rfl

/-- C6 counterexample: a firing of the telegram MessageManager marketing
timer whose eligibility check denies (last send was this very instant)
schedules no next timer: rearm is none, so a denial does not re-arm the
channel. -/
theorem always_rearm_counterexample :
    (Telegram.sendMarketingMessage true true (some ⟨1000, [], 0⟩) 1000 0 false
      (some "generated") true).rearm = none := rfl

/-- C6 amended: the MarketingManager of part_000 always re-arms: its timer
callback schedules the next message in a finally block, on success and on
error alike, and only stop cancels the timers.  The telegram MessageManager
instead re-arms exactly when the firing reached a confirmed successful
send: an eligibility denial, a failed generation or a failed transport send
leaves the channel without a scheduled next check. -/
theorem always_rearm_amended :
    (∀ (st : Marketing.M000State) (gid : String) (o : Except String Unit),
      gid ∈ (Marketing.fireCallback st gid o).messageIntervals)
    ∧ (∀ (e c : Bool) (a? : Option Telegram.GroupActivity) (now mm24 : Nat)
        (lw : Bool) (gen : Option String) (so : Bool),
      (Telegram.sendMarketingMessage e c a? now mm24 lw gen so).rearm =
        (if e && Telegram.canSendMarketingMessage a? now mm24 lw && gen.isSome && so
          then some Telegram.MIN_MARKETING_INTERVAL else none)) := by
  constructor
  · intro st gid o
    cases o <;> exact List.mem_cons_self _ _
  · intro e c a? now mm24 lw gen so
    cases e with
    | false => rfl
    | true =>
      cases h : Telegram.canSendMarketingMessage a? now mm24 lw with
      | false => simp [Telegram.sendMarketingMessage, h]
      | true =>
        cases gen with
        | none => simp [Telegram.sendMarketingMessage, h]
        | some t =>
          cases so with
          | false => simp [Telegram.sendMarketingMessage, h]
          | true =>
            cases a? with
            | none => simp [Telegram.canSendMarketingMessage] at h
            | some a => simp [Telegram.sendMarketingMessage, h]

/-- C7 counterexample: with the connection down (connected false) an
eligible firing of the telegram marketing timer is not skipped: it still
reaches the transport send call, and when that send fails the channel is
not re-armed; no connection check exists in sendMarketingMessage. -/
theorem connection_gate_counterexample :
    (Telegram.sendMarketingMessage true false (some ⟨0, [], 0⟩) 300000 0 false
      (some "promo") false).sendAttempted = true ∧
    (Telegram.sendMarketingMessage true false (some ⟨0, [], 0⟩) 300000 0 false
      (some "promo") false).rearm = none :=
  ⟨rfl, rfl⟩

/-- C7 amended: sendMarketingMessage never reads the connection state (its
result is independent of the connected argument), so a firing while
disconnected runs exactly as while connected; quota and timing state stay
unchanged during an outage only because the failing transport send records
nothing and, far from being re-armed after a short delay, such a firing
schedules nothing. -/
theorem connection_gate_amended :
    (∀ (e : Bool) (a? : Option Telegram.GroupActivity) (now mm24 : Nat) (lw : Bool)
        (gen : Option String) (so c1 c2 : Bool),
      Telegram.sendMarketingMessage e c1 a? now mm24 lw gen so =
        Telegram.sendMarketingMessage e c2 a? now mm24 lw gen so)
    ∧ (∀ (e c : Bool) (a? : Option Telegram.GroupActivity) (now mm24 : Nat)
        (lw : Bool) (gen : Option String),
      (Telegram.sendMarketingMessage e c a? now mm24 lw gen false).activity = a? ∧
      (Telegram.sendMarketingMessage e c a? now mm24 lw gen false).rearm = none) := by
  constructor
  · intro e a? now mm24 lw gen so c1 c2
    rfl
  · intro e c a? now mm24 lw gen
    unfold Telegram.sendMarketingMessage
    split
    · exact ⟨rfl, rfl⟩
    · split
      · exact ⟨rfl, rfl⟩
      · cases gen <;> exact ⟨rfl, rfl⟩

/-- C8 counterexample: the discord per-message activity update does not
prune: recording a user message at time 360000 into a channel that holds an
event of age 360000 ms (older than the 300000 ms window) retains that stale
event. -/
theorem prune_on_record_counterexample :
    ((Discord.updateChannelActivity ⟨0, [⟨true, 0⟩], 0, 0⟩ 360000).recentMessages.any
      fun m => decide (Discord.MESSAGE_ACTIVITY_WINDOW < 360000 - m.time)) = true := by
  decide

/-- C8 amended: the telegram updateGroupActivity appends the event and
prunes, so afterwards every retained event lies inside the activity window;
the discord updateChannelActivity only appends the new event and performs
no pruning (stale events are excluded only at read time by isGroupActive). -/
theorem prune_on_record_amended :
    (∀ (a? : Option Telegram.GroupActivity) (now : Nat) (m : MsgEvent),
      m ∈ (Telegram.updateGroupActivity a? now).recentMessages →
        now - m.time < Telegram.MESSAGE_ACTIVITY_WINDOW)
    ∧ (∀ (a : Discord.GroupActivity) (now : Nat),
      (Discord.updateChannelActivity a now).recentMessages =
        a.recentMessages ++ [⟨true, now⟩]) := by
  constructor
  · intro a? now m hm
    simp only [Telegram.updateGroupActivity] at hm
    split at hm <;>
      exact of_decide_eq_true (List.mem_filter.mp hm).2
  · intro a now
    rfl

/-- Witness for C8 amended: the pruning guarantee applied to the entry the
update lazily creates for an unknown group at time 300000. -/
theorem prune_on_record_amended_witness :
    300000 - (⟨true, 300000⟩ : MsgEvent).time < Telegram.MESSAGE_ACTIVITY_WINDOW :=
  prune_on_record_amended.1 none 300000 ⟨true, 300000⟩ (by decide)

/-- C9: disarm is idempotent.  The MarketingManager stop empties the timer
map, so a second stop leaves the same (empty) state and cancels nothing,
and the telegram stopMarketing flag update is idempotent as well; neither
can fail. -/
theorem disarm_idempotent :
    (∀ s : Marketing.M000State,
      (Marketing.stop (Marketing.stop s).1).1 = (Marketing.stop s).1 ∧
      (Marketing.stop (Marketing.stop s).1).2 = [] ∧
      (Marketing.stop s).1.messageIntervals = [])
    ∧ (∀ b : Bool,
      Telegram.stopMarketing (Telegram.stopMarketing b) = Telegram.stopMarketing b) :=
  ⟨fun _ => ⟨rfl, rfl, rfl⟩, fun _ => rfl⟩

/-- C10: the bot never reacts to its own messages: the discord
message-manager handleMessage returns none without invoking generation when
the author is the bot itself, the discord event handler skips such events
before reaching the manager, and the telegram isGroupAuthorized denies them
so the handler returns first. -/
theorem never_reply_to_self :
    (∀ (botId : String) (sr : Bool) (gen : Option String),
      DiscordClient.handleMessage botId botId sr gen = (none, false))
    ∧ (∀ (uid : String) (hc al : Bool),
      DiscordClient.messageCreateProcessed (some uid) uid hc al = false)
    ∧ (∀ (bid : String) (cfg : Bool) (gids : List String) (chat : String),
      TgBot.isGroupAuthorized (some bid) (some bid) cfg gids chat = false) := by
  refine ⟨?_, ?_, ?_⟩
  · intro botId sr gen
    simp [DiscordClient.handleMessage]
  · intro uid hc al
    simp [DiscordClient.messageCreateProcessed]
  · intro bid cfg gids chat
    simp [TgBot.isGroupAuthorized]
